import Mathlib

/-!
Verification of the librarian command core: the release-worthiness decision
engine and the command-state assembly pipeline (work-root creation, repository
acquisition, pipeline-state loading, image derivation, commit helper).

Pure functions of `internal/librarian/command.go` are embedded directly;
functions with side effects (filesystem stat/mkdir, git clone/open/status,
container construction) are embedded as functions of an explicit environment
record that fixes the outcome of each external call, with the returned values
and the performed effects made explicit.
-/

/-- CommitMessage: the structured commit classification. Field-for-field from
the repository's data model (slices of strings, a breaking flag, provenance
fields, and the explicit trigger / no-trigger library-ID sets); a `{}` value is
the zero-value message. -/
structure CommitMessage where
  Features : List String := []
  Fixes : List String := []
  Breaking : Bool := false
  Docs : List String := []
  PiperOrigins : List String := []
  SourceLinks : List String := []
  CommitHash : String := ""
  TriggerLibraries : List String := []
  NoTriggerLibraries : List String := []
deriving Repr, DecidableEq

/-- Modelled from the spec: the function `IsReleaseWorthy` is not among the
given source files (only its test `TestIsReleaseWorthy` is), so it is modelled
from the spec's ordered first-match-wins rule list:
1. libraryID in NoTriggerLibraries -> false;
2. else libraryID in TriggerLibraries -> true;
3. else true iff Features or Fixes is non-empty or Breaking. -/
def IsReleaseWorthy (m : CommitMessage) (libraryID : String) : Bool :=
  if m.NoTriggerLibraries.contains libraryID then false
  else if m.TriggerLibraries.contains libraryID then true
  else decide (m.Features.length > 0) || decide (m.Fixes.length > 0) || m.Breaking

/-- Validation of the model against every row of `TestIsReleaseWorthy`
(src/unnamed/part_000): the thirteen test cases, in order, with their
expected outcomes. -/
theorem isReleaseWorthy_matches_test_table :
    IsReleaseWorthy {} "lib-B" = false ∧
    IsReleaseWorthy { NoTriggerLibraries := ["lib-A"] } "lib-A" = false ∧
    IsReleaseWorthy { Features := ["new feature"], NoTriggerLibraries := ["lib-A"] } "lib-A" = false ∧
    IsReleaseWorthy { Fixes := ["bug fix"], NoTriggerLibraries := ["lib-A"] } "lib-A" = false ∧
    IsReleaseWorthy { Breaking := true, NoTriggerLibraries := ["lib-A"] } "lib-A" = false ∧
    IsReleaseWorthy { TriggerLibraries := ["lib-B"] } "lib-B" = true ∧
    IsReleaseWorthy { TriggerLibraries := ["lib-B"], NoTriggerLibraries := ["lib-B"] } "lib-B" = false ∧
    IsReleaseWorthy { Features := ["new feature"] } "lib-C" = true ∧
    IsReleaseWorthy { Fixes := ["bug fix"] } "lib-D" = true ∧
    IsReleaseWorthy { Breaking := true } "lib-E" = true ∧
    IsReleaseWorthy { Features := ["f1"], Fixes := ["fx1"] } "lib-F" = true ∧
    IsReleaseWorthy { Features := ["f1"], Fixes := ["fx1"], Breaking := true } "lib-G" = true ∧
    IsReleaseWorthy { Docs := ["update docs"], PiperOrigins := ["p1"], SourceLinks := ["s1"], CommitHash := "abc" } "lib-H" = false := by
  decide

/-- C1: a library ID in `NoTriggerLibraries` forces `IsReleaseWorthy` to
`false`, whatever `Features`, `Fixes`, `Breaking` and `TriggerLibraries`
contain — in particular even when the ID is also in `TriggerLibraries`. -/
theorem isReleaseWorthy_noTrigger_forces_false (m : CommitMessage) (L : String)
    (h : m.NoTriggerLibraries.contains L = true) :
    IsReleaseWorthy m L = false := by
  unfold IsReleaseWorthy
  rw [h]
  simp

/-- C1 witness: the no-trigger override at a concrete message whose
`Features`, `Breaking` and `TriggerLibraries` would all pull the other way. -/
theorem isReleaseWorthy_noTrigger_forces_false_witness :
    IsReleaseWorthy { Features := ["new feature"], Breaking := true, TriggerLibraries := ["lib-A"], NoTriggerLibraries := ["lib-A"] } "lib-A" = false :=
  isReleaseWorthy_noTrigger_forces_false _ "lib-A" (by decide)

/-- C2: for a library ID not in `NoTriggerLibraries`: membership in
`TriggerLibraries` forces `true`; otherwise the outcome is exactly
`Features ≠ [] ∨ Fixes ≠ [] ∨ Breaking`; `Docs`, `PiperOrigins`,
`SourceLinks` and `CommitHash` never affect the outcome; and the zero-value
message is not release worthy for any library ID. -/
theorem isReleaseWorthy_trigger_and_default (m : CommitMessage) (L : String)
    (h : m.NoTriggerLibraries.contains L = false) :
    (m.TriggerLibraries.contains L = true → IsReleaseWorthy m L = true) ∧
    (m.TriggerLibraries.contains L = false →
      IsReleaseWorthy m L =
        (decide (m.Features.length > 0) || decide (m.Fixes.length > 0) || m.Breaking)) ∧
    (∀ docs po sl ch, IsReleaseWorthy
        { m with Docs := docs, PiperOrigins := po, SourceLinks := sl, CommitHash := ch } L =
      IsReleaseWorthy m L) ∧
    (∀ L2 : String, IsReleaseWorthy {} L2 = false) := by
  refine ⟨fun ht => ?_, fun ht => ?_, fun docs po sl ch => rfl, fun L2 => rfl⟩
  · unfold IsReleaseWorthy
    rw [h, ht]
    simp
  · unfold IsReleaseWorthy
    rw [h, ht]
    simp

/-- C2 witness: the trigger override at a concrete message with no features,
fixes or breaking change. -/
theorem isReleaseWorthy_trigger_and_default_witness :
    IsReleaseWorthy { TriggerLibraries := ["lib-B"] } "lib-B" = true :=
  (isReleaseWorthy_trigger_and_default { TriggerLibraries := ["lib-B"] } "lib-B"
    (by decide)).1 (by decide)

/-- LibraryState: the per-library record of the persisted pipeline state; this
core reads only its `Id` and `ApiPaths` fields. -/
structure LibraryState where
  Id : String := ""
  ApiPaths : List String := []
deriving Repr, DecidableEq

/-- PipelineState: the persisted pipeline state; this core reads only its
`ImageTag` and `Libraries` fields. A Go `*PipelineState` is `Option
PipelineState`, `none` standing for the nil pointer. -/
structure PipelineState where
  ImageTag : String := ""
  Libraries : List LibraryState := []
deriving Repr, DecidableEq

/-- deriveImage, line for line from `command.go`: an explicit override wins;
otherwise the image is `google-cloud-<language>-generator:<tag>` with the tag
read from the pipeline state (or `latest` when the state pointer is nil),
prefixed by `<defaultRepository>/` when a default repository is given
(`fmt.Sprintf` is string concatenation). -/
def deriveImage (language imageOverride defaultRepository : String)
    (state : Option PipelineState) : String :=
  if imageOverride ≠ "" then imageOverride
  else
    let relativeImage := "google-cloud-" ++ language ++ "-generator"
    let tag : String :=
      match state with
      | none => "latest"
      | some s => s.ImageTag
    if defaultRepository = "" then relativeImage ++ ":" ++ tag
    else defaultRepository ++ "/" ++ relativeImage ++ ":" ++ tag

/-- C3: deriveImage returns the override verbatim when it is non-empty;
otherwise it returns `google-cloud-<language>-generator:<tag>` — the tag being
the state's recorded image tag for a non-nil state and `latest` for a nil
state — prefixed with `<defaultRepository>/` exactly when the default
repository is non-empty. -/
theorem deriveImage_characterization (language imageOverride defaultRepository : String)
    (state : Option PipelineState) :
    (imageOverride ≠ "" →
      deriveImage language imageOverride defaultRepository state = imageOverride) ∧
    (imageOverride = "" →
      deriveImage language imageOverride defaultRepository state =
        (if defaultRepository = "" then "" else defaultRepository ++ "/") ++
          ("google-cloud-" ++ language ++ "-generator" ++ ":" ++
            (match state with
             | none => "latest"
             | some s => s.ImageTag))) := by
  constructor
  · intro hov
    simp [deriveImage, hov]
  · intro hov
    subst hov
    by_cases hdr : defaultRepository = ""
    · simp [deriveImage, hdr, String.empty_append, String.append_assoc]
    · simp [deriveImage, hdr, String.append_assoc]

/-- C3 at the spec's three concrete test vectors: a non-empty override is
returned verbatim; with no override the registry and the state tag (or the
`latest` fallback) compose as stated. -/
theorem deriveImage_examples :
    deriveImage "go" "img:1" "us" (some { ImageTag := "v2" }) = "img:1" ∧
    deriveImage "go" "" "" none = "google-cloud-go-generator:latest" ∧
    deriveImage "go" "" "us" (some { ImageTag := "v2" }) = "us/google-cloud-go-generator:v2" := by
  refine ⟨rfl, rfl, rfl⟩

/-- C9: with an empty override and a non-nil pipeline state whose recorded
image tag is empty, the `latest` fallback is not applied: the derived
reference uses the empty tag and so ends in a bare colon; the fallback
applies only to the nil state. -/
theorem deriveImage_emptyTag_no_fallback (language defaultRepository : String)
    (s : PipelineState) (h : s.ImageTag = "") :
    deriveImage language "" defaultRepository (some s) =
      (if defaultRepository = "" then "" else defaultRepository ++ "/") ++
        ("google-cloud-" ++ language ++ "-generator" ++ ":") ∧
    deriveImage language "" defaultRepository (some s) ≠
      (if defaultRepository = "" then "" else defaultRepository ++ "/") ++
        ("google-cloud-" ++ language ++ "-generator" ++ ":" ++ "latest") ∧
    deriveImage language "" defaultRepository none =
      (if defaultRepository = "" then "" else defaultRepository ++ "/") ++
        ("google-cloud-" ++ language ++ "-generator" ++ ":" ++ "latest") := by
  have h6 : ("latest" : String).length = 6 := rfl
  have h0 : ("" : String).length = 0 := rfl
  refine ⟨?_, ?_, ?_⟩
  · by_cases hdr : defaultRepository = "" <;>
      simp [deriveImage, hdr, h, String.append_empty, String.empty_append, String.append_assoc]
  · intro hEq
    have hlen := congrArg String.length hEq
    by_cases hdr : defaultRepository = "" <;>
      simp only [deriveImage, hdr, h, ite_true, ite_false, ne_eq, not_true_eq_false,
        String.length_append, String.empty_append, h6, h0] at hlen <;>
      omega
  · by_cases hdr : defaultRepository = "" <;>
      simp [deriveImage, hdr, String.append_empty, String.empty_append, String.append_assoc]

/-- C9 witness: the derived reference for a present state with an empty
recorded tag ends in a bare colon. -/
theorem deriveImage_emptyTag_no_fallback_witness :
    deriveImage "go" "" "" (some { ImageTag := "" }) = "google-cloud-go-generator:" := by
  simpa using (deriveImage_emptyTag_no_fallback "go" "" { ImageTag := "" } rfl).1

/-- Loop body of findLibraryIDByApiPath: walk the library list in order and
return the first matching Id (`slices.Contains` is list membership). -/
def findLibraryIDInLibraries (libs : List LibraryState) (apiPath : String) : String :=
  match libs with
  | [] => ""
  | library :: rest =>
    if library.ApiPaths.contains apiPath then library.Id
    else findLibraryIDInLibraries rest apiPath

/-- findLibraryIDByApiPath from `command.go`: ranges over `state.Libraries`,
returns the Id of the first library whose ApiPaths contains the given path,
and the empty string after an unsuccessful full scan. -/
def findLibraryIDByApiPath (state : PipelineState) (apiPath : String) : String :=
  findLibraryIDInLibraries state.Libraries apiPath

/-- C10: findLibraryIDByApiPath returns the Id of the first library, in list
order, whose ApiPaths contains the API path, and the empty string when no
library of the state contains it. -/
theorem findLibraryIDByApiPath_first_match (state : PipelineState) (apiPath : String) :
    findLibraryIDByApiPath state apiPath =
      (match state.Libraries.find? (fun l => l.ApiPaths.contains apiPath) with
       | some l => l.Id
       | none => "") := by
  show findLibraryIDInLibraries state.Libraries apiPath = _
  induction state.Libraries with
  | nil => rfl
  | cons hd tl ih =>
    cases hc : hd.ApiPaths.contains apiPath with
    | true =>
      simp at hc
      simp [findLibraryIDInLibraries, List.find?, hc]
    | false =>
      simp at hc
      simp [findLibraryIDInLibraries, List.find?, hc, ih]

/-- C10 at concrete states: the first of two matching libraries wins, and a
state with no matching library yields the empty string. -/
theorem findLibraryIDByApiPath_examples :
    findLibraryIDByApiPath { Libraries := [{ Id := "a", ApiPaths := ["p", "q"] }, { Id := "b", ApiPaths := ["q"] }] } "q" = "a" ∧
    findLibraryIDByApiPath { Libraries := [{ Id := "a", ApiPaths := ["p"] }] } "r" = "" := by
  decide

/-- GoTime: an instant as Go's `time.Time` carries it for formatting — the
absolute time in seconds since the Unix epoch together with the offset, in
seconds east of UTC, of the location attached to the value (`time.Now()`
attaches the machine's local location). -/
structure GoTime where
  abs : Int
  offset : Int
deriving Repr, DecidableEq

/-- Civil (proleptic Gregorian) date of a day count relative to 1970-01-01,
by the standard era-based conversion; used to render wall-clock dates. -/
def civilFromDays (z0 : Int) : Int × Nat × Nat :=
  let z := z0 + 719468
  let era := z.fdiv 146097
  let doe := (z - era * 146097).toNat
  let yoe := (doe - doe / 1460 + doe / 36524 - doe / 146096) / 365
  let y := (yoe : Int) + era * 400
  let doy := doe - (365 * yoe + yoe / 4 - yoe / 100)
  let mp := (5 * doy + 2) / 153
  let d := doy - (153 * mp + 2) / 5 + 1
  let m := if mp < 10 then mp + 3 else mp - 9
  (if m ≤ 2 then y + 1 else y, m, d)

/-- Two-digit zero-padded decimal. -/
def pad2 (n : Nat) : String := if n < 10 then "0" ++ toString n else toString n

/-- Four-digit zero-padded decimal. -/
def pad4 (n : Nat) : String :=
  if n < 10 then "000" ++ toString n
  else if n < 100 then "00" ++ toString n
  else if n < 1000 then "0" ++ toString n
  else toString n

/-- Wall-clock rendering `YYYYMMDDTHHMMSS` of a count of seconds since the
epoch. -/
def wallClockRender (s : Int) : String :=
  let days := s.fdiv 86400
  let sod := (s - days * 86400).toNat
  let c := civilFromDays days
  pad4 c.1.toNat ++ pad2 c.2.1 ++ pad2 c.2.2 ++ "T" ++
    pad2 (sod / 3600) ++ pad2 (sod % 3600 / 60) ++ pad2 (sod % 60)

/-- formatTimestamp from `command.go`: `t.Format("20060102T150405Z")`. In a
Go reference-date layout the timezone items are `Z0700`, `Z07`, `Z07:00` and
their second-resolution forms; a bare trailing `Z` matches none of them, so
it is copied to the output as a literal character, and `Format` renders the
wall clock of the time in the location the value carries, with no conversion
to UTC. The rendered digits are therefore the location-local wall clock of
`t`, suffixed with a literal `Z`. -/
def formatTimestamp (t : GoTime) : String :=
  wallClockRender (t.abs + t.offset) ++ "Z"

/-- Follows the spec's words, for the refinement comparison of C7: the
second-granularity UTC rendering `YYYYMMDDTHHMMSSZ` of the instant `t`. -/
def utcTimestampSpec (t : GoTime) : String :=
  wallClockRender t.abs ++ "Z"

/-- Outcome of an `os.Stat` call as `createWorkRoot` classifies it: the path
is absent (`os.IsNotExist` holds of the error), the path is present (nil
error), or the check itself failed. -/
inductive StatResult where
  | notFound
  | found
  | statFailed (msg : String)
deriving Repr, DecidableEq

/-- The filesystem as createWorkRoot sees it: the system temp root and the
outcomes of `os.Stat` and `os.Mkdir` per path. -/
structure FsEnv where
  tempDir : String
  stat : String → StatResult
  mkdir : String → Except String Unit

/-- Go's `filepath.Join` on two components: an empty component contributes no
separator (further path cleaning does not arise for the joins made here). -/
def goFilepathJoin (a b : String) : String :=
  if a = "" then b else if b = "" then a else a ++ "/" ++ b

/-- A single-quote character, used verbatim inside wrapped error texts. -/
def sQuote : String := (Char.ofNat 39).toString

/-- createWorkRoot from `command.go`, with the filesystem as an explicit
environment. The Go `(string, error)` result is the `Except`; the second
component lists the `os.Mkdir` calls performed, so a retry, fallback or
reuse would be visible in it. An override is returned verbatim; otherwise
the `librarian-<timestamp>` directory under the temp root is created only
when absent, a pre-existing directory is an error naming the path, and a
failing stat or mkdir propagates as a wrapped error. -/
def createWorkRoot (env : FsEnv) (t : GoTime) (workRootOverride : String) :
    Except String String × List String :=
  if workRootOverride ≠ "" then (.ok workRootOverride, [])
  else
    let path := goFilepathJoin env.tempDir ("librarian-" ++ formatTimestamp t)
    match env.stat path with
    | .notFound =>
      match env.mkdir path with
      | .ok _ => (.ok path, [path])
      | .error e =>
        (.error ("unable to create temporary working directory " ++ sQuote ++ path ++ sQuote ++ ": " ++ e), [path])
    | .found => (.error ("temporary working directory already exists: " ++ path), [])
    | .statFailed e => (.error ("unable to check directory " ++ sQuote ++ path ++ sQuote ++ ": " ++ e), [])

/-- C6: with no override supplied, when the timestamped directory already
exists, createWorkRoot returns the error naming the pre-existing path, and
performs no retry, fallback or reuse: no `os.Mkdir` call is made and no work
root is returned. -/
theorem createWorkRoot_preexisting_fatal (env : FsEnv) (t : GoTime)
    (h : env.stat (goFilepathJoin env.tempDir ("librarian-" ++ formatTimestamp t)) = .found) :
    createWorkRoot env t "" =
      (.error ("temporary working directory already exists: " ++
        goFilepathJoin env.tempDir ("librarian-" ++ formatTimestamp t)), []) := by
  simp [createWorkRoot, h]

/-- C6 witness: the pre-existence error at a concrete clock and temp root. -/
theorem createWorkRoot_preexisting_fatal_witness :
    createWorkRoot { tempDir := "/tmp", stat := fun _ => .found, mkdir := fun _ => .ok () } ⟨0, 0⟩ "" =
      (.error "temporary working directory already exists: /tmp/librarian-19700101T000000Z", []) := by
  have h := createWorkRoot_preexisting_fatal
    { tempDir := "/tmp", stat := fun _ => .found, mkdir := fun _ => .ok () } ⟨0, 0⟩ rfl
  rw [h]
  rfl

/-- C7 counterexample: take the start instant 1970-01-01T00:00:00 UTC carried
in a location at offset +01:00 (as `time.Now()` yields on such a machine),
an absent target directory and a succeeding mkdir. The directory
createWorkRoot creates with no override is named from the local wall clock
(`librarian-19700101T010000Z`), not from the UTC rendering of the instant
(`19700101T000000Z`): the claim as stated fails at this input. -/
theorem createWorkRoot_name_not_utc_counterexample :
    (createWorkRoot { tempDir := "/tmp", stat := fun _ => .notFound, mkdir := fun _ => .ok () } ⟨0, 3600⟩ "").1 =
      .ok "/tmp/librarian-19700101T010000Z" ∧
    utcTimestampSpec ⟨0, 3600⟩ = "19700101T000000Z" ∧
    ("/tmp/librarian-19700101T010000Z" : String) ≠
      goFilepathJoin "/tmp" ("librarian-" ++ utcTimestampSpec ⟨0, 3600⟩) := by
  refine ⟨rfl, rfl, by decide⟩

/-- C7 (amended): with no override, when the timestamped path is absent and
its creation succeeds, the work directory createWorkRoot creates is under
the system temp root and named `librarian-<YYYYMMDDTHHMMSSZ>`, where the
digits are the second-granularity wall clock of the start time `t` in the
location `t` carries and the trailing `Z` is a literal character; the name
coincides with the UTC rendering of `t` whenever `t`'s location is at
offset zero. -/
theorem createWorkRoot_names_local_wall_clock (env : FsEnv) (t : GoTime)
    (h : env.stat (goFilepathJoin env.tempDir ("librarian-" ++ formatTimestamp t)) = .notFound)
    (hmk : env.mkdir (goFilepathJoin env.tempDir ("librarian-" ++ formatTimestamp t)) = .ok ()) :
    (createWorkRoot env t "").1 =
      .ok (goFilepathJoin env.tempDir ("librarian-" ++ formatTimestamp t)) ∧
    formatTimestamp t = wallClockRender (t.abs + t.offset) ++ "Z" ∧
    (t.offset = 0 → formatTimestamp t = utcTimestampSpec t) := by
  refine ⟨?_, rfl, ?_⟩
  · simp [createWorkRoot, h, hmk]
  · intro h0
    unfold formatTimestamp utcTimestampSpec
    rw [h0, Int.add_zero]

/-- C7 witness: at a UTC-carried instant and an absent directory the created
work root is the temp-rooted timestamped path. -/
theorem createWorkRoot_names_local_wall_clock_witness :
    (createWorkRoot { tempDir := "/tmp", stat := fun _ => .notFound, mkdir := fun _ => .ok () } ⟨0, 0⟩ "").1 =
      .ok "/tmp/librarian-19700101T000000Z" := by
  have h := (createWorkRoot_names_local_wall_clock
    { tempDir := "/tmp", stat := fun _ => .notFound, mkdir := fun _ => .ok () } ⟨0, 0⟩ rfl rfl).1
  rw [h]
  rfl

/-- Go's `strings.TrimSuffix`: remove one trailing occurrence of the suffix
when present. -/
def trimSuffix (s suffix : String) : String :=
  if s.endsWith suffix then s.dropRight suffix.length else s

/-- Go's `path.Base`: the last element of a slash-separated path; `.` for the
empty path, `/` for a path made of slashes only. -/
def pathBase (s : String) : String :=
  if s = "" then "."
  else
    let cs := s.data.reverse.dropWhile (fun c => c = '/')
    if cs = [] then "/"
    else String.mk (cs.takeWhile (fun c => c ≠ '/')).reverse

/-- RepositoryOptions, field for field from `gitrepo.RepositoryOptions` as
this file constructs it. -/
structure RepositoryOptions where
  Dir : String := ""
  MaybeClone : Bool := false
  RemoteURL : String := ""
  CI : String := ""
deriving Repr, DecidableEq

/-- A repository handle; the only observable this core relies on is the
directory the handle is bound to. -/
structure Repository where
  Dir : String
deriving Repr, DecidableEq

/-- The git world as cloneOrOpenLanguageRepo sees it: whether a locator is a
URL (`isUrl`, defined elsewhere in the package), the outcome of
`filepath.Abs`, whether acquiring a repository with given options fails
(`acquireAt`, `none` meaning success), and the outcome of the handle's
`IsClean`. -/
structure GitWorld where
  isUrl : String → Bool
  abs : String → Except String String
  acquireAt : RepositoryOptions → Option String
  isClean : Repository → Except String Bool

/-- Modelled from the spec: `gitrepo.NewRepository` is not among the given
source files; per the spec's repository-acquisition contract it clones or
opens a repository at `options.Dir` and returns a handle bound to that path,
the success or failure of the underlying git operation being external
(environment-determined). -/
def newRepository (w : GitWorld) (opts : RepositoryOptions) : Except String Repository :=
  match w.acquireAt opts with
  | some e => .error e
  | none => .ok { Dir := opts.Dir }

/-- cloneOrOpenLanguageRepo from `command.go`: an empty locator fails; a URL
locator clones under the work root into a directory named by the URL's last
path segment; a filesystem-path locator is resolved to an absolute path,
opened, and required to be clean. -/
def cloneOrOpenLanguageRepo (w : GitWorld) (workRoot repo ci : String) :
    Except String Repository :=
  if repo = "" then .error "repo must be specified"
  else if w.isUrl repo then
    let repoName := pathBase (trimSuffix repo "/")
    let repoPath := goFilepathJoin workRoot repoName
    newRepository w { Dir := repoPath, MaybeClone := true, RemoteURL := repo, CI := ci }
  else
    match w.abs repo with
    | .error e => .error e
    | .ok absRepoRoot =>
      match newRepository w { Dir := absRepoRoot, CI := ci } with
      | .error e => .error e
      | .ok languageRepo =>
        match w.isClean languageRepo with
        | .error e => .error e
        | .ok clean =>
          if !clean then .error "language repo must be clean"
          else .ok languageRepo

/-- C5: an empty locator is an immediate error; a non-URL filesystem-path
locator is resolved through `filepath.Abs` and the repository at the
resolved absolute path is opened; a dirty open repository (staged or
unstaged modifications, `IsClean` false) is an error, and a clean one yields
the handle bound to the resolved absolute path. -/
theorem cloneOrOpenLanguageRepo_acquisition (w : GitWorld) (workRoot repo ci : String) :
    (repo = "" → cloneOrOpenLanguageRepo w workRoot repo ci = .error "repo must be specified") ∧
    (repo ≠ "" → w.isUrl repo = false →
      ∀ a, w.abs repo = .ok a →
        w.acquireAt { Dir := a, CI := ci } = none →
        (w.isClean { Dir := a } = .ok false →
          cloneOrOpenLanguageRepo w workRoot repo ci = .error "language repo must be clean") ∧
        (w.isClean { Dir := a } = .ok true →
          cloneOrOpenLanguageRepo w workRoot repo ci = .ok { Dir := a })) := by
  constructor
  · intro h0
    simp [cloneOrOpenLanguageRepo, h0]
  · intro h0 hurl a habs hacq
    constructor <;> intro hcl <;>
      simp [cloneOrOpenLanguageRepo, h0, hurl, habs, newRepository, hacq, hcl]

/-- C5 at three concrete worlds: a clean local repository is acquired at the
resolved absolute path, a dirty one is refused, and the empty locator is
refused. -/
theorem cloneOrOpenLanguageRepo_examples :
    cloneOrOpenLanguageRepo { isUrl := fun _ => false, abs := fun s => .ok ("/abs/" ++ s), acquireAt := fun _ => none, isClean := fun _ => .ok true } "/work" "repo" "ci" = .ok { Dir := "/abs/repo" } ∧
    cloneOrOpenLanguageRepo { isUrl := fun _ => false, abs := fun s => .ok ("/abs/" ++ s), acquireAt := fun _ => none, isClean := fun _ => .ok false } "/work" "repo" "ci" = .error "language repo must be clean" ∧
    cloneOrOpenLanguageRepo { isUrl := fun _ => false, abs := fun s => .ok ("/abs/" ++ s), acquireAt := fun _ => none, isClean := fun _ => .ok true } "/work" "" "ci" = .error "repo must be specified" := by
  refine ⟨rfl, rfl, rfl⟩

/-- PipelineConfig: externally defined, opaque structured record; this core
only threads it through. -/
structure PipelineConfig where
  raw : Nat := 0
deriving Repr, DecidableEq

/-- A container-execution configuration as `docker.New` builds it; opaque to
this core beyond identity. -/
structure Docker where
  handle : Nat := 0
deriving Repr, DecidableEq

/-- commandState, field for field from `command.go`: everything a command
execution needs, built exactly once by the assembler. -/
structure commandState where
  startTime : GoTime
  workRoot : String
  languageRepo : Repository
  pipelineConfig : Option PipelineConfig
  pipelineState : Option PipelineState
  containerConfig : Docker
deriving Repr, DecidableEq

/-- Everything external that createCommandStateForLanguage consults: the
clock, the filesystem, the git world, the state loader
(`loadRepoStateAndConfig`, defined elsewhere in the package: it reads the
pipeline state and config from the acquired repository) and the container
constructor (`docker.New`, external, taking work root, image, secrets
project, uid, gid and the loaded config). -/
structure CmdWorld where
  now : GoTime
  fs : FsEnv
  git : GitWorld
  loadRepoStateAndConfig : Repository → Except String (Option PipelineState × Option PipelineConfig)
  dockerNew : String → String → String → String → String → Option PipelineConfig → Except String Docker

/-- createCommandStateForLanguage from `command.go`, with the Go return pair
`(*commandState, error)` kept as an explicit pair of options so that the
claim «never both a value and an error» is a statement about the embedding
rather than an artifact of it. Each stage is run in the source's order;
the first failing stage's error is returned with a nil state. -/
def createCommandStateForLanguage (w : CmdWorld)
    (workRootOverride repo language imageOverride defaultRepository secretsProject ci uid gid : String) :
    Option commandState × Option String :=
  let startTime := w.now
  match (createWorkRoot w.fs startTime workRootOverride).1 with
  | .error e => (none, some e)
  | .ok workRoot =>
    match cloneOrOpenLanguageRepo w.git workRoot repo ci with
    | .error e => (none, some e)
    | .ok languageRepo =>
      match w.loadRepoStateAndConfig languageRepo with
      | .error e => (none, some e)
      | .ok (ps, config) =>
        let image := deriveImage language imageOverride defaultRepository ps
        match w.dockerNew workRoot image secretsProject uid gid config with
        | .error e => (none, some e)
        | .ok containerConfig =>
          (some { startTime := startTime, workRoot := workRoot,
                  languageRepo := languageRepo, pipelineConfig := config,
                  pipelineState := ps, containerConfig := containerConfig }, none)

/-- C4: the assembler never exposes a partially constructed commandState.
Its Go result pair is either a fully populated state — every field equal to
its stage's output — with a nil error, or a nil state with the first failing
stage's error; never both and never neither. -/
theorem createCommandStateForLanguage_no_partial (w : CmdWorld)
    (wro repo language io dr sp ci uid gid : String) :
    (((createCommandStateForLanguage w wro repo language io dr sp ci uid gid).1.isSome = true ∧
        (createCommandStateForLanguage w wro repo language io dr sp ci uid gid).2 = none) ∨
      ((createCommandStateForLanguage w wro repo language io dr sp ci uid gid).1 = none ∧
        (createCommandStateForLanguage w wro repo language io dr sp ci uid gid).2.isSome = true)) ∧
    (∀ s, (createCommandStateForLanguage w wro repo language io dr sp ci uid gid).1 = some s →
      s.startTime = w.now ∧
      (createWorkRoot w.fs w.now wro).1 = .ok s.workRoot ∧
      cloneOrOpenLanguageRepo w.git s.workRoot repo ci = .ok s.languageRepo ∧
      w.loadRepoStateAndConfig s.languageRepo = .ok (s.pipelineState, s.pipelineConfig) ∧
      w.dockerNew s.workRoot (deriveImage language io dr s.pipelineState) sp uid gid s.pipelineConfig = .ok s.containerConfig) ∧
    (∀ e, (createWorkRoot w.fs w.now wro).1 = .error e →
      createCommandStateForLanguage w wro repo language io dr sp ci uid gid = (none, some e)) ∧
    (∀ wr e, (createWorkRoot w.fs w.now wro).1 = .ok wr →
      cloneOrOpenLanguageRepo w.git wr repo ci = .error e →
      createCommandStateForLanguage w wro repo language io dr sp ci uid gid = (none, some e)) ∧
    (∀ wr lr e, (createWorkRoot w.fs w.now wro).1 = .ok wr →
      cloneOrOpenLanguageRepo w.git wr repo ci = .ok lr →
      w.loadRepoStateAndConfig lr = .error e →
      createCommandStateForLanguage w wro repo language io dr sp ci uid gid = (none, some e)) ∧
    (∀ wr lr ps cfg e, (createWorkRoot w.fs w.now wro).1 = .ok wr →
      cloneOrOpenLanguageRepo w.git wr repo ci = .ok lr →
      w.loadRepoStateAndConfig lr = .ok (ps, cfg) →
      w.dockerNew wr (deriveImage language io dr ps) sp uid gid cfg = .error e →
      createCommandStateForLanguage w wro repo language io dr sp ci uid gid = (none, some e)) := by
  refine ⟨?_, ?_, ?_, ?_, ?_, ?_⟩
  · rcases hwr : (createWorkRoot w.fs w.now wro).1 with e0 | wr0
    · exact Or.inr (by simp [createCommandStateForLanguage, hwr])
    · rcases hcl : cloneOrOpenLanguageRepo w.git wr0 repo ci with e1 | lr0
      · exact Or.inr (by simp [createCommandStateForLanguage, hwr, hcl])
      · rcases hld : w.loadRepoStateAndConfig lr0 with e2 | pc
        · exact Or.inr (by simp [createCommandStateForLanguage, hwr, hcl, hld])
        · rcases pc with ⟨ps, cfg⟩
          rcases hdk : w.dockerNew wr0 (deriveImage language io dr ps) sp uid gid cfg with e3 | dk
          · exact Or.inr (by simp [createCommandStateForLanguage, hwr, hcl, hld, hdk])
          · exact Or.inl (by simp [createCommandStateForLanguage, hwr, hcl, hld, hdk])
  · intro s hs
    rcases hwr : (createWorkRoot w.fs w.now wro).1 with e0 | wr0
    · simp [createCommandStateForLanguage, hwr] at hs
    · rcases hcl : cloneOrOpenLanguageRepo w.git wr0 repo ci with e1 | lr0
      · simp [createCommandStateForLanguage, hwr, hcl] at hs
      · rcases hld : w.loadRepoStateAndConfig lr0 with e2 | pc
        · simp [createCommandStateForLanguage, hwr, hcl, hld] at hs
        · rcases pc with ⟨ps, cfg⟩
          rcases hdk : w.dockerNew wr0 (deriveImage language io dr ps) sp uid gid cfg with e3 | dk
          · simp [createCommandStateForLanguage, hwr, hcl, hld, hdk] at hs
          · simp [createCommandStateForLanguage, hwr, hcl, hld, hdk] at hs
            subst hs
            exact ⟨rfl, rfl, hcl, hld, hdk⟩
  · intro e he
    simp [createCommandStateForLanguage, he]
  · intro wr e h1 h2
    simp [createCommandStateForLanguage, h1, h2]
  · intro wr lr e h1 h2 h3
    simp [createCommandStateForLanguage, h1, h2, h3]
  · intro wr lr ps cfg e h1 h2 h3 h4
    simp [createCommandStateForLanguage, h1, h2, h3, h4]

/-- Result of the repository's `AddAll`: a git status, of which the only
observable consulted is `IsClean` — whether staging left no differences. -/
structure GitStatus where
  IsClean : Bool
deriving Repr, DecidableEq

/-- One commit performed on the repository: message, user name, user email. -/
structure CommitCall where
  msg : String
  userName : String
  userEmail : String
deriving Repr, DecidableEq

/-- The repository as commitAll drives it: the outcome of `AddAll` (staging
all working-tree changes and reporting the resulting status) and the outcome
of `Commit` for a given message and identity. -/
structure CommitWorld where
  addAll : Except String GitStatus
  commit : String → String → String → Except String Unit

/-- commitAll from `command.go`: stage everything; if the resulting status is
clean, succeed without committing; otherwise commit once with the supplied
message and identity. The second component lists the commits performed. -/
def commitAll (w : CommitWorld) (msg userName userEmail : String) :
    Except String Unit × List CommitCall :=
  match w.addAll with
  | .error e => (.error e, [])
  | .ok status =>
    if status.IsClean then (.ok (), [])
    else (w.commit msg userName userEmail,
      [{ msg := msg, userName := userName, userEmail := userEmail }])

/-- C8: after staging, a clean status returns success with no commit
performed; a status with differences performs exactly one commit carrying
the supplied message, user name and user email (returning that commit's
outcome). -/
theorem commitAll_commit_discipline (w : CommitWorld) (msg userName userEmail : String) :
    (∀ st, w.addAll = .ok st → st.IsClean = true →
      commitAll w msg userName userEmail = (.ok (), [])) ∧
    (∀ st, w.addAll = .ok st → st.IsClean = false →
      commitAll w msg userName userEmail =
        (w.commit msg userName userEmail,
          [{ msg := msg, userName := userName, userEmail := userEmail }])) := by
  constructor <;> intro st h1 h2 <;> simp [commitAll, h1, h2]

/-- C8 at two concrete repositories: an unchanged tree commits nothing and
succeeds; a changed tree commits exactly once with the given identity. -/
theorem commitAll_examples :
    commitAll { addAll := .ok { IsClean := true }, commit := fun _ _ _ => .ok () } "m" "n" "e" = (.ok (), []) ∧
    commitAll { addAll := .ok { IsClean := false }, commit := fun _ _ _ => .ok () } "m" "n" "e" =
      (.ok (), [{ msg := "m", userName := "n", userEmail := "e" }]) := by
  refine ⟨rfl, rfl⟩

/-- C4 at a concrete world in which every stage succeeds: the assembler
returns the fully populated aggregate and a nil error. -/
theorem createCommandStateForLanguage_example :
    createCommandStateForLanguage
      { now := ⟨0, 0⟩,
        fs := { tempDir := "/tmp", stat := fun _ => .notFound, mkdir := fun _ => .ok () },
        git := { isUrl := fun _ => false, abs := fun s => .ok ("/abs/" ++ s), acquireAt := fun _ => none, isClean := fun _ => .ok true },
        loadRepoStateAndConfig := fun _ => .ok (some { ImageTag := "v1" }, some {}),
        dockerNew := fun _ _ _ _ _ _ => .ok { handle := 7 } }
      "" "repo" "go" "" "" "" "ci" "u" "g" =
      (some { startTime := ⟨0, 0⟩, workRoot := "/tmp/librarian-19700101T000000Z",
              languageRepo := { Dir := "/abs/repo" }, pipelineConfig := some {},
              pipelineState := some { ImageTag := "v1" }, containerConfig := { handle := 7 } }, none) := by
  rfl
